import Mathlib

/-!
Shallow embedding of the policy engine of `june/policy.py` (JUNE_germany).

Python dictionaries are modelled as insertion-ordered association lists
(`List (String × α)`): assignment updates an existing key in place and
otherwise appends, exactly as CPython dicts behave.  Calendar timestamps are
modelled at day granularity as integers (`Date := Int`); the code only ever
compares and tests equality of `datetime` values, which this preserves.
Python exceptions are modelled as an error component threaded through the
functions that can raise; in-place mutation plus a propagating exception is
modelled by returning the state reached at the point of failure together
with the raised error.
-/

namespace JunePolicy

abbrev Date := Int

/-- Exceptions that appear in (or are claimed about) `june/policy.py`.
`policyError` is the repository's `PolicyError`; `typeError`, `valueError`
and `keyError` are the Python built-ins raised by the code; the spec's
posited `configurationError` has no counterpart class anywhere in the
repository but is included so that statements about it can be expressed. -/
inductive PyErr
  | typeError
  | valueError
  | keyError
  | policyError
  | configurationError
  deriving DecidableEq

/-! ## Python dict model -/

def lookupD {α : Type} : List (String × α) → String → Option α
  | [], _ => none
  | kv :: rest, k => if kv.1 = k then some kv.2 else lookupD rest k

def hasKey {α : Type} : List (String × α) → String → Bool
  | [], _ => false
  | kv :: rest, k => if kv.1 = k then true else hasKey rest k

def replaceKey {α : Type} : List (String × α) → String → α → List (String × α)
  | [], _, _ => []
  | kv :: rest, k, v => (if kv.1 = k then (k, v) else kv) :: replaceKey rest k v

/-- Python dict assignment `m[k] = v`: replace if the key exists, append otherwise. -/
def setD {α : Type} (m : List (String × α)) (k : String) (v : α) : List (String × α) :=
  if hasKey m k = true then replaceKey m k v else m ++ [(k, v)]

/-! ## SocialDistancing and `Policies.apply_social_distancing_policy`

The interaction collaborator is consumed only through its `beta` dict,
mapping an interaction-type key to a coefficient.  Since the restoration
branch of the applier writes `policy.original_betas[key]` (which is `None`
until first activation) straight into `interaction.beta`, beta values are
modelled as `Option ℚ`, with `none` standing for Python's `None`. -/

abbrev Beta := List (String × Option ℚ)

structure SDPolicy where
  start_time : Date
  end_time : Date
  beta_factors : List (String × ℚ)
  original_betas : List (String × Option ℚ)
  deriving DecidableEq

/-- `SocialDistancing.__init__`: `original_betas` is pre-filled with `None`
for every key of `beta_factors` ("to be filled when coupled to interaction"). -/
def SDPolicy.init (s e : Date) (bf : List (String × ℚ)) : SDPolicy :=
  ⟨s, e, bf, bf.map (fun kv => (kv.1, none))⟩

/-- `Policy.is_active` as inherited by `SocialDistancing`: half-open window. -/
def sdIsActive (p : SDPolicy) (d : Date) : Bool :=
  decide (p.start_time ≤ d ∧ d < p.end_time)

/-- First loop of `apply_social_distancing_policy`, inner body: write every
snapshot value back into `interaction.beta` under the same key. -/
def sdRestoreBetas (ob : List (String × Option ℚ)) (beta : Beta) : Beta :=
  ob.foldl (fun b kv => setD b kv.1 kv.2) beta

/-- First loop of `apply_social_distancing_policy`: over the policies that
are active on `d` (the applier iterates `get_social_distancing_policies(date)`,
an order-preserving filter by `is_active`), restore the betas of those whose
`end_time` equals the date. -/
def sdRestorePass (d : Date) (ps : List SDPolicy) (beta : Beta) : Beta :=
  ps.foldl
    (fun b p =>
      if sdIsActive p d = true ∧ p.end_time = d then sdRestoreBetas p.original_betas b else b)
    beta

/-- Body of the activation loop for one policy: for each `(key, value)` of
`beta_factors`, execute `original_betas[key] = beta[key]` (a missing key
raises `KeyError` there) and then `beta[key] = beta[key] * value` (a `None`
current value raises `TypeError`).  Returns the beta table, the snapshot,
and the exception, if any, at the point it was raised. -/
def sdActivateActs :
    List (String × ℚ) → Beta → List (String × Option ℚ) →
      Beta × List (String × Option ℚ) × Option PyErr
  | [], b, ob => (b, ob, none)
  | (k, f) :: rest, b, ob =>
    match lookupD b k with
    | none => (b, ob, some PyErr.keyError)
    | some cur =>
      match cur with
      | none => (b, setD ob k cur, some PyErr.typeError)
      | some q => sdActivateActs rest (setD b k (some (q * f))) (setD ob k cur)

/-- Second loop of `apply_social_distancing_policy`: over the active
policies, activate those whose `start_time` equals the date, threading the
beta table and updating each policy's snapshot in place.  An exception
aborts the remaining iterations, leaving later policies untouched. -/
def sdActivationPass (d : Date) : List SDPolicy → Beta → List SDPolicy × Beta × Option PyErr
  | [], b => ([], b, none)
  | p :: ps, b =>
    if sdIsActive p d = true ∧ p.start_time = d then
      match sdActivateActs p.beta_factors b p.original_betas with
      | (b2, ob2, none) =>
        let r := sdActivationPass d ps b2
        (⟨p.start_time, p.end_time, p.beta_factors, ob2⟩ :: r.1, r.2.1, r.2.2)
      | (b2, ob2, some e) =>
        (⟨p.start_time, p.end_time, p.beta_factors, ob2⟩ :: ps, b2, some e)
    else
      let r := sdActivationPass d ps b
      (p :: r.1, r.2.1, r.2.2)

/-- `Policies.apply_social_distancing_policy(date, interaction)`: the
deactivation loop runs first ("order matters"), then the activation loop. -/
def apply_social_distancing_policy (d : Date) (ps : List SDPolicy) (beta : Beta) :
    List SDPolicy × Beta × Option PyErr :=
  sdActivationPass d ps (sdRestorePass d ps beta)

/-- The concrete scenario of the spec: `beta_factors = [("household", 1/2)]`,
window day 10 to day 20, with the interaction coefficient initially `2`. -/
def sdScenarioPolicy : SDPolicy := SDPolicy.init 10 20 [("household", 1/2)]

def sdScenarioBeta : Beta := [("household", some 2)]

/-- The state of the scenario policy after the day-10 activation: the
snapshot holds the captured coefficient `2`. -/
def sdScenarioPolicyDay10 : SDPolicy := ⟨10, 20, [("household", 1/2)], [("household", some 2)]⟩

/-! ## ChangeLeisureProbability and `Policies.apply_change_probabilities_leisure`

A leisure distributor is consumed through its `male_probabilities` /
`female_probabilities` fields.  Probability curves (the output of the
external `parse_age_probabilites` collaborator) are moved around wholesale
and never inspected, so they are modelled as lists of rationals. -/

abbrev Curve := List ℚ

/-- A leisure distributor's `(male_probabilities, female_probabilities)`. -/
abbrev Dist := Curve × Curve

/-- `leisure.leisure_distributors`: activity identifier → distributor. -/
abbrev LTable := List (String × Dist)

/-- A policy's `original_leisure_probabilities`: `none` models the empty
per-activity dict set up at construction (no "men"/"women" keys yet). -/
abbrev LSnap := List (String × Option Dist)

structure CLPolicy where
  start_time : Date
  end_time : Date
  leisure_probabilities : List (String × Dist)
  original_leisure_probabilities : LSnap
  deriving DecidableEq

/-- `ChangeLeisureProbability.__init__`: stores the (parsed) new curves per
activity and pre-fills the snapshot with an empty record per activity
("this will be filled when coupled to leisure"). -/
def CLPolicy.init (s e : Date) (lp : List (String × Dist)) : CLPolicy :=
  ⟨s, e, lp, lp.map (fun kv => (kv.1, none))⟩

/-- `ChangeLeisureProbability.is_active`: overridden to a closed interval
("modified in this policy to include the end date"). -/
def clIsActive (p : CLPolicy) (d : Date) : Bool :=
  decide (p.start_time ≤ d ∧ d ≤ p.end_time)

/-- Activation branch, per-activity loop: an activity missing from
`leisure.leisure_distributors` raises `PolicyError`; otherwise the current
male/female curves are captured into the snapshot and overwritten with the
policy's curves.  Returns the table and snapshot reached at the point of
failure. -/
def clActivateActs : List (String × Dist) → LTable → LSnap → LTable × LSnap × Option PyErr
  | [], t, ob => (t, ob, none)
  | (a, mw) :: rest, t, ob =>
    match lookupD t a with
    | none => (t, ob, some PyErr.policyError)
    | some dist => clActivateActs rest (setD t a mw) (setD ob a (some dist))

/-- Restoration branch, per-activity loop: an activity missing from the
table raises `PolicyError`; an activity whose snapshot record was never
filled raises `KeyError` (reading `original[...]["men"]` from an empty
dict).  Otherwise the snapshot curves are written back.  The snapshot
itself is never modified. -/
def clRestoreActs : List (String × Dist) → LTable → LSnap → LTable × Option PyErr
  | [], t, _ => (t, none)
  | (a, _) :: rest, t, ob =>
    match lookupD t a with
    | none => (t, some PyErr.policyError)
    | some _ =>
      match lookupD ob a with
      | some (some dist) => clRestoreActs rest (setD t a dist) ob
      | _ => (t, some PyErr.keyError)

/-- The body of `apply_change_probabilities_leisure` for one active policy:
`if policy.start_time == date` activate, `elif policy.end_time == date`
restore, else do nothing. -/
def clApplyPolicy (d : Date) (p : CLPolicy) (t : LTable) : CLPolicy × LTable × Option PyErr :=
  if p.start_time = d then
    match clActivateActs p.leisure_probabilities t p.original_leisure_probabilities with
    | (t2, ob2, e) => (⟨p.start_time, p.end_time, p.leisure_probabilities, ob2⟩, t2, e)
  else if p.end_time = d then
    match clRestoreActs p.leisure_probabilities t p.original_leisure_probabilities with
    | (t2, e) => (p, t2, e)
  else (p, t, none)

/-- `Policies.apply_change_probabilities_leisure(date, leisure)`: a single
loop over the active policies (closed-interval `is_active` filter, order
preserving); an exception aborts the remaining iterations. -/
def apply_change_probabilities_leisure (d : Date) :
    List CLPolicy → LTable → List CLPolicy × LTable × Option PyErr
  | [], t => ([], t, none)
  | p :: ps, t =>
    if clIsActive p d = true then
      match clApplyPolicy d p t with
      | (p2, t2, none) =>
        let r := apply_change_probabilities_leisure d ps t2
        (p2 :: r.1, r.2.1, r.2.2)
      | (p2, t2, some e) => (p2 :: ps, t2, some e)
    else
      let r := apply_change_probabilities_leisure d ps t
      (p :: r.1, r.2.1, r.2.2)

/-- Original male/female curves sitting in the leisure table for "pubs". -/
def clOld : Dist := ([5], [7])

/-- Replacement curves configured by the policy for "pubs". -/
def clNew : Dist := ([2], [3])

def clScenarioPolicy : CLPolicy := CLPolicy.init 10 20 [("pubs", clNew)]

def clScenarioTable : LTable := [("pubs", clOld)]

/-- The scenario policy after its day-10 activation captured `clOld`. -/
def clScenarioPolicyActive : CLPolicy := ⟨10, 20, [("pubs", clNew)], [("pubs", some clOld)]⟩

/-- A ChangeLeisureProbability policy with a degenerate window
`start_time = end_time = 5`. -/
def clDegenerate : CLPolicy := CLPolicy.init 5 5 [("pubs", clNew)]

/-- A second ChangeLeisureProbability policy whose window ends on day 5,
with its snapshot filled by an earlier activation. -/
def clLaterRestore : CLPolicy := ⟨1, 5, [("pubs", ([9], [9]))], [("pubs", some ([8], [8]))]⟩

/-- A policy configured for "pubs" (present) and "gyms" (absent from the
leisure table below). -/
def clMissingPolicy : CLPolicy := CLPolicy.init 3 8 [("pubs", clNew), ("gyms", ([1], [1]))]

def clMissingTable : LTable := [("pubs", clOld)]

/-- The same configuration at the end of its window, with both snapshots
filled by an earlier activation. -/
def clMissingPolicyEnd : CLPolicy :=
  ⟨1, 3, [("pubs", clNew), ("gyms", ([1], [1]))],
   [("pubs", some clOld), ("gyms", some ([1], [1]))]⟩

/-! ## The `is_active` contract over all policy kinds -/

/-- The closed set of concrete policy classes in `june/policy.py`. -/
inductive PolicyKind
  | permanentPolicy
  | quarantine
  | shielding
  | closeSchools
  | closeUniversities
  | closeCompanies
  | closeLeisureVenue
  | socialDistancing
  | changeLeisureProbability
  deriving DecidableEq

/-- `Policy.is_active(date)`: `start_time <= date < end_time`, except that
`ChangeLeisureProbability` overrides it to `start_time <= date <= end_time`. -/
def is_active (k : PolicyKind) (s e d : Date) : Bool :=
  match k with
  | PolicyKind.changeLeisureProbability => decide (s ≤ d ∧ d ≤ e)
  | _ => decide (s ≤ d ∧ d < e)

/-! ## `Policy.read_date` and construction-time validation

`read_date` accepts a string (parsed with `datetime.strptime(date, "%Y-%m-%d")`,
which raises `ValueError` on anything that does not match) or a
`datetime.date` (converted preserving its calendar day), and raises
`TypeError` for every other input.  `strptime` with this format accepts a
4-digit year, a 1-2 digit month and day, and validates the result as a real
calendar date. -/

def digitsToNat (g : List Char) : Nat :=
  g.foldl (fun n c => 10 * n + (c.toNat - Char.toNat '0')) 0

def splitOnDash : List Char → List (List Char)
  | [] => [[]]
  | c :: rest =>
    if c = '-' then [] :: splitOnDash rest
    else
      match splitOnDash rest with
      | [] => [[c]]
      | g :: gs => (c :: g) :: gs

structure YMD where
  year : Nat
  month : Nat
  day : Nat
  deriving DecidableEq

def isLeap (y : Nat) : Bool := (y % 4 == 0 && y % 100 != 0) || y % 400 == 0

def daysInMonth (y m : Nat) : Nat :=
  if m = 2 then (if isLeap y = true then 29 else 28)
  else if m = 4 ∨ m = 6 ∨ m = 9 ∨ m = 11 then 30
  else 31

/-- `datetime.strptime(s, "%Y-%m-%d")`, as a partial parse. -/
def parseYMD (s : String) : Option YMD :=
  match splitOnDash s.data with
  | [gy, gm, gd] =>
    if gy.length = 4 ∧ gy.all Char.isDigit
        ∧ 1 ≤ gm.length ∧ gm.length ≤ 2 ∧ gm.all Char.isDigit
        ∧ 1 ≤ gd.length ∧ gd.length ≤ 2 ∧ gd.all Char.isDigit then
      let y := digitsToNat gy
      let m := digitsToNat gm
      let d := digitsToNat gd
      if 1 ≤ y ∧ 1 ≤ m ∧ m ≤ 12 ∧ 1 ≤ d ∧ d ≤ daysInMonth y m then some ⟨y, m, d⟩
      else none
    else none
  | _ => none

/-- The possible runtime types of the `start_time` / `end_time` arguments:
a string, a `datetime.date`-like value (carrying its calendar day), or any
other value (e.g. an integer). -/
inductive DateArg
  | str (s : String)
  | pydate (d : YMD)
  | otherVal
  deriving DecidableEq

/-- `Policy.read_date`. -/
def read_date : DateArg → Except PyErr YMD
  | DateArg.str s =>
    match parseYMD s with
    | some d => Except.ok d
    | none => Except.error PyErr.valueError
  | DateArg.pydate d => Except.ok d
  | DateArg.otherVal => Except.error PyErr.typeError

/-- `Policy.__init__`'s date handling: `read_date(start_time)` then
`read_date(end_time)`, each exception surfacing immediately at
construction time. -/
def policy_init_dates (s e : DateArg) : Except PyErr (YMD × YMD) :=
  match read_date s with
  | Except.error err => Except.error err
  | Except.ok sd =>
    match read_date e with
    | Except.error err => Except.error err
    | Except.ok ed => Except.ok (sd, ed)

/-! ## StayHomeCollection

The collection's members are StayHome policies consumed only through their
`must_stay_at_home(person, days_from_start)` predicate, so members are
modelled as predicate functions.  To express which members the loop
evaluates, the embedding of `__call__` also counts the
`must_stay_at_home` calls it performs. -/

structure PersonSH where
  hospital : Option Nat

def stayHomeLoop (p : PersonSH) (d : ℚ) : List (PersonSH → ℚ → Bool) → Bool × Nat
  | [] => (false, 0)
  | f :: fs =>
    if f p d = true then (true, 1)
    else ((stayHomeLoop p d fs).1, (stayHomeLoop p d fs).2 + 1)

/-- `StayHomeCollection.__call__`: if the person occupies a hospital the
member loop is skipped entirely and the result is `False`; otherwise the
members are queried in order, returning `True` at the first hit. -/
def stayHomeCollectionCall (pols : List (PersonSH → ℚ → Bool)) (p : PersonSH) (d : ℚ) :
    Bool × Nat :=
  match p.hospital with
  | some _ => (false, 0)
  | none => stayHomeLoop p d pols

/-! ## SkipActivity policies and SkipActivityCollection

`CloseCompanies.skip_activity` consults `np.random.rand()`; the draw is
passed in explicitly, one fresh value per member policy call. -/

inductive LockdownStatus
  | key_worker
  | furlough
  | random
  | unspecified
  deriving DecidableEq

structure PersonSkip where
  age : Nat
  primary_activity_spec : Option String
  lockdown_status : Option LockdownStatus
  residents : List (Option LockdownStatus)

/-- `SkipActivity.remove_activities`. -/
def remove_activities (activities activities_to_remove : List String) : List String :=
  activities.filter (fun a => ! activities_to_remove.contains a)

/-- `CloseSchools._check_kid_goes_to_school`: age below 14 and at least two
key workers among the residence's residents. -/
def _check_kid_goes_to_school (p : PersonSkip) : Bool :=
  decide (p.age < 14)
    && decide (2 ≤ (p.residents.filter
        (fun r => decide (r = some LockdownStatus.key_worker))).length)

/-- The concrete `SkipActivity` subclasses and their parameters
(`years_to_close = "all"` is already expanded to `0..19` at construction,
as `CloseSchools.__init__` does). -/
inductive SkipActivityPolicy
  | closeSchools (full_closure : Bool) (years_to_close : List Nat)
  | closeUniversities
  | closeCompanies (full_closure : Bool) (random_work_probability : Option ℚ)

/-- `skip_activity` of each concrete subclass; `rand` is the per-call
uniform draw used by `CloseCompanies` under the random-work scheme. -/
def skip_activity (pol : SkipActivityPolicy) (p : PersonSkip) (rand : ℚ)
    (activities : List String) : List String :=
  match pol with
  | SkipActivityPolicy.closeSchools full_closure years =>
    if p.primary_activity_spec = some "school" then
      if (full_closure || decide (p.age ∈ years)) && ! _check_kid_goes_to_school p then
        remove_activities activities ["primary_activity"]
      else activities
    else activities
  | SkipActivityPolicy.closeUniversities =>
    if p.primary_activity_spec = some "university" then
      remove_activities activities ["primary_activity"]
    else activities
  | SkipActivityPolicy.closeCompanies full_closure rwp =>
    if p.primary_activity_spec = some "company" then
      if full_closure || decide (p.lockdown_status = some LockdownStatus.furlough) then
        remove_activities activities ["primary_activity", "commute"]
      else
        match rwp with
        | some prob =>
          if p.lockdown_status = some LockdownStatus.random then
            if prob < rand then remove_activities activities ["primary_activity", "commute"]
            else activities
          else activities
        | none => activities
    else activities

/-- `SkipActivityCollection.__call__`: thread the shrinking activity list
through every member policy in registration order. -/
def skipActivityCollectionCall :
    List (SkipActivityPolicy × ℚ) → PersonSkip → List String → List String
  | [], _, acts => acts
  | (pol, r) :: rest, p, acts => skipActivityCollectionCall rest p (skip_activity pol p r acts)

/-! ## Quarantine.must_stay_at_home

The person collaborator is read through `person.symptoms.tag`,
`person.health_information.time_of_symptoms_onset` (both reads can raise,
e.g. when no symptoms are recorded — modelled by `none`) and through the
household predicate `person.residence.group.quarantine(days_from_start,
n_days_household, household_complacency)`, whose outcome (a boolean or a
raised exception) is carried by the person record. -/

inductive SymptomTag
  | mild
  | severe
  | otherTag
  deriving DecidableEq

structure PersonQ where
  symptoms_tag : Option SymptomTag
  time_of_symptoms_onset : Option ℚ
  household_quarantine : ℚ → ℚ → ℚ → Except PyErr Bool

structure QuarantineParams where
  n_days : ℚ
  n_days_household : ℚ
  household_complacency : ℚ

/-- `Quarantine.must_stay_at_home`: the self-quarantine check sits inside a
`try`/`except: pass` that swallows every failure, leaving
`self_quarantine = False`; the household check is evaluated outside that
protection, afterwards, and its exceptions propagate. -/
def quarantine_must_stay_at_home (pol : QuarantineParams) (p : PersonQ)
    (days_from_start : ℚ) : Except PyErr Bool :=
  let self_quarantine : Bool :=
    match p.symptoms_tag with
    | none => false
    | some tag =>
      if tag = SymptomTag.mild ∨ tag = SymptomTag.severe then
        match p.time_of_symptoms_onset with
        | none => false
        | some t0 =>
          decide (t0 + pol.n_days > days_from_start ∧ days_from_start > t0)
      else false
  match p.household_quarantine days_from_start pol.n_days_household pol.household_complacency with
  | Except.error e => Except.error e
  | Except.ok hq => Except.ok (self_quarantine || hq)

def personQScenario : PersonQ :=
  ⟨some SymptomTag.mild, some 5, fun _ _ _ => Except.ok false⟩

def personQFailingHouse : PersonQ :=
  ⟨some SymptomTag.severe, some 5, fun _ _ _ => Except.error PyErr.keyError⟩

theorem hasKey_eq_isSome {α : Type} (m : List (String × α)) (k : String) :
    hasKey m k = (lookupD m k).isSome := by
  induction m with
  | nil => rfl
  | cons kv rest ih =>
    by_cases h : kv.1 = k <;> simp [hasKey, lookupD, h, ih]

theorem lookupD_append_none {α : Type} {m : List (String × α)} {k : String}
    (l : List (String × α)) (h : lookupD m k = none) :
    lookupD (m ++ l) k = lookupD l k := by
  induction m with
  | nil => rfl
  | cons kv rest ih =>
    by_cases hk : kv.1 = k
    · simp [lookupD, hk] at h
    · simp [lookupD, hk] at h ⊢
      exact ih h

theorem lookupD_append_some {α : Type} {m : List (String × α)} {k : String} {v : α}
    (l : List (String × α)) (h : lookupD m k = some v) :
    lookupD (m ++ l) k = some v := by
  induction m with
  | nil => simp [lookupD] at h
  | cons kv rest ih =>
    by_cases hk : kv.1 = k
    · simp [lookupD, hk] at h ⊢
      exact h
    · simp [lookupD, hk] at h ⊢
      exact ih h

theorem lookupD_replaceKey_ne {α : Type} (m : List (String × α)) (k : String) (v : α)
    {k' : String} (h : k' ≠ k) :
    lookupD (replaceKey m k v) k' = lookupD m k' := by
  induction m with
  | nil => rfl
  | cons kv rest ih =>
    by_cases hk : kv.1 = k
    · have hkv : ¬ (kv.1 = k') := by rw [hk]; exact fun hh => h hh.symm
      have hkk : ¬ (k = k') := fun hh => h hh.symm
      simp only [replaceKey, if_pos hk, lookupD, if_neg hkv, if_neg hkk]
      exact ih
    · simp only [replaceKey, if_neg hk, lookupD]
      by_cases hk' : kv.1 = k'
      · rw [if_pos hk', if_pos hk']
      · rw [if_neg hk', if_neg hk']
        exact ih

theorem lookupD_replaceKey_self {α : Type} (m : List (String × α)) (k : String) (v : α)
    (h : hasKey m k = true) :
    lookupD (replaceKey m k v) k = some v := by
  induction m with
  | nil => simp [hasKey] at h
  | cons kv rest ih =>
    by_cases hk : kv.1 = k
    · simp [replaceKey, hk, lookupD]
    · simp [hasKey, hk] at h
      simp [replaceKey, hk, lookupD, ih h]

/-- Characterisation of dict assignment: after `m[k] = v`, looking up `k`
yields `v` and every other key is unchanged. -/
theorem lookupD_setD {α : Type} (m : List (String × α)) (k : String) (v : α) (k' : String) :
    lookupD (setD m k v) k' = if k' = k then some v else lookupD m k' := by
  unfold setD
  by_cases hk : hasKey m k = true
  · rw [if_pos hk]
    by_cases h : k' = k
    · subst h
      simp [lookupD_replaceKey_self m k' v hk]
    · simp [lookupD_replaceKey_ne m k v h, h]
  · rw [if_neg hk]
    have hnone : lookupD m k = none := by
      rw [hasKey_eq_isSome] at hk
      cases hcase : lookupD m k with
      | none => rfl
      | some w => rw [hcase] at hk; simp at hk
    by_cases h : k' = k
    · subst h
      rw [lookupD_append_none _ hnone]
      simp [lookupD]
    · rw [if_neg h]
      cases hcase : lookupD m k' with
      | none =>
        rw [lookupD_append_none _ hcase]
        simp only [lookupD]
        rw [if_neg (fun hh : k = k' => h hh.symm)]
      | some w =>
        exact lookupD_append_some _ hcase

theorem lookupD_setD_isSome {α : Type} (m : List (String × α)) (k : String) (v : α)
    (k' : String) (h : (lookupD m k').isSome = true) :
    (lookupD (setD m k v) k').isSome = true := by
  rw [lookupD_setD]
  by_cases hk : k' = k <;> simp [hk, h]

/-- The restoration branch of `apply_social_distancing_policy` is
unreachable: it only considers policies drawn from the `is_active` filter
(`start_time <= date < end_time`), so no considered policy can satisfy
`end_time == date`. -/
theorem sdRestorePass_eq_id (d : Date) (ps : List SDPolicy) (beta : Beta) :
    sdRestorePass d ps beta = beta := by
  induction ps generalizing beta with
  | nil => rfl
  | cons p ps ih =>
    unfold sdRestorePass
    rw [List.foldl_cons, if_neg]
    · exact ih beta
    · rintro ⟨hact, hend⟩
      rw [sdIsActive, decide_eq_true_iff] at hact
      rw [hend] at hact
      exact absurd hact.2 (lt_irrefl d)

/-- C1: evaluation of `apply_social_distancing_policy` on the spec's concrete
scenario.  Day 9 leaves everything unchanged and day 10 activates as claimed
(coefficient `2 * 1/2 = 1`, snapshot `2`), but on day 20 the applier does
nothing at all: the policy is filtered out by `is_active` (since
`start <= 20 < 20` is false), so the coefficient stays at `1`, it is not
restored to `2`, and the snapshot is not cleared.  The last conjunct shows
the restoration branch is dead code for every input. -/
theorem sd_restore_dead_scenario :
    apply_social_distancing_policy 9 [sdScenarioPolicy] sdScenarioBeta
      = ([sdScenarioPolicy], sdScenarioBeta, none)
    ∧ apply_social_distancing_policy 10 [sdScenarioPolicy] sdScenarioBeta
      = ([sdScenarioPolicyDay10], [("household", some 1)], none)
    ∧ apply_social_distancing_policy 20 [sdScenarioPolicyDay10] [("household", some 1)]
      = ([sdScenarioPolicyDay10], [("household", some 1)], none)
    ∧ ∀ d ps beta, apply_social_distancing_policy d ps beta = sdActivationPass d ps beta := by
  refine ⟨?_, ?_, ?_, fun d ps beta => ?_⟩
  · norm_num [apply_social_distancing_policy, sdRestorePass, sdRestoreBetas, sdActivationPass,
      sdActivateActs, sdIsActive, lookupD, setD, hasKey, replaceKey,
      sdScenarioPolicy, sdScenarioBeta, SDPolicy.init]
  · norm_num [apply_social_distancing_policy, sdRestorePass, sdRestoreBetas, sdActivationPass,
      sdActivateActs, sdIsActive, lookupD, setD, hasKey, replaceKey,
      sdScenarioPolicy, sdScenarioBeta, sdScenarioPolicyDay10, SDPolicy.init]
  · norm_num [apply_social_distancing_policy, sdRestorePass, sdRestoreBetas, sdActivationPass,
      sdActivateActs, sdIsActive, lookupD, setD, hasKey, replaceKey, sdScenarioPolicyDay10]
  · unfold apply_social_distancing_policy
    rw [sdRestorePass_eq_id]

/-- C2 counterexample: the snapshot is not cleared by deactivation.  The
scenario policy activates on day 10 (snapshot captures `clOld`) and its
deactivation pass on day 20 does restore the table, yet afterwards —
e.g. at day 21, outside the active window — `original_leisure_probabilities`
still holds the captured curves instead of being empty/unset. -/
theorem cl_snapshot_not_cleared_after_restore :
    apply_change_probabilities_leisure 10 [clScenarioPolicy] clScenarioTable
      = ([clScenarioPolicyActive], [("pubs", clNew)], none)
    ∧ apply_change_probabilities_leisure 20 [clScenarioPolicyActive] [("pubs", clNew)]
      = ([clScenarioPolicyActive], clScenarioTable, none)
    ∧ clIsActive clScenarioPolicyActive 21 = false
    ∧ lookupD clScenarioPolicyActive.original_leisure_probabilities "pubs"
        = some (some clOld) := by
  refine ⟨?_, ?_, by decide, ?_⟩
  · simp [apply_change_probabilities_leisure, clApplyPolicy, clIsActive, clActivateActs,
      clRestoreActs, lookupD, setD, hasKey, replaceKey, clScenarioPolicy, clScenarioTable,
      clScenarioPolicyActive, CLPolicy.init]
  · simp [apply_change_probabilities_leisure, clApplyPolicy, clIsActive, clActivateActs,
      clRestoreActs, lookupD, setD, hasKey, replaceKey, clScenarioTable,
      clScenarioPolicyActive]
  · simp [clScenarioPolicyActive, lookupD]

/-- C2 amended: the snapshot fields hold `None`/empty placeholders from
construction on (keys exist, values unset), and the appliers never clear
them — a policy whose `start_time` is not the query date keeps its snapshot
untouched through both appliers, in particular after the deactivation pass
has restored the collaborator values. -/
theorem snapshot_placeholder_and_never_cleared :
    (∀ s e bf, (SDPolicy.init s e bf).original_betas.all (fun kv => kv.2.isNone) = true)
    ∧ (∀ s e lp,
        (CLPolicy.init s e lp).original_leisure_probabilities.all (fun kv => kv.2.isNone) = true)
    ∧ (∀ d p t, p.start_time ≠ d → (clApplyPolicy d p t).1 = p)
    ∧ (∀ d p b, p.start_time ≠ d → sdActivationPass d [p] b = ([p], b, none)) := by
  refine ⟨?_, ?_, ?_, ?_⟩
  · intro s e bf
    simp [SDPolicy.init, List.all_eq_true]
    intro a b x x1 _ _ hb
    exact hb.symm
  · intro s e lp
    simp [CLPolicy.init, List.all_eq_true]
    intro a b x x1 x2 _ _ hb
    exact hb.symm
  · intro d p t hstart
    unfold clApplyPolicy
    rw [if_neg hstart]
    by_cases hend : p.end_time = d
    · rw [if_pos hend]
    · rw [if_neg hend]
  · intro d p b hstart
    unfold sdActivationPass
    rw [if_neg (fun hc => hstart hc.2)]
    rfl

/-- Witness for the amended C2 statement at concrete inputs. -/
theorem snapshot_never_cleared_witness :
    (clApplyPolicy 9 clScenarioPolicyActive [("pubs", clNew)]).1 = clScenarioPolicyActive
    ∧ sdActivationPass 9 [sdScenarioPolicy] sdScenarioBeta
        = ([sdScenarioPolicy], sdScenarioBeta, none) :=
  ⟨snapshot_placeholder_and_never_cleared.2.2.1 9 clScenarioPolicyActive [("pubs", clNew)]
      (by decide),
   snapshot_placeholder_and_never_cleared.2.2.2 9 sdScenarioPolicy sdScenarioBeta (by decide)⟩

/-- C3 counterexample: in `apply_change_probabilities_leisure` a policy with
`start_time = end_time = 5` is processed on day 5 by the activation branch
(`if start_time == date` is checked before `elif end_time == date`): the
table is overwritten with the policy curves and the snapshot captures the
old ones — it does not restore before or instead of reactivating. -/
theorem cl_degenerate_window_activates :
    apply_change_probabilities_leisure 5 [clDegenerate] clScenarioTable
      = ([⟨5, 5, [("pubs", clNew)], [("pubs", some clOld)]⟩], [("pubs", clNew)], none)
    ∧ [(("pubs" : String), clNew)] ≠ clScenarioTable := by
  constructor
  · simp [apply_change_probabilities_leisure, clApplyPolicy, clIsActive, clActivateActs,
      lookupD, setD, hasKey, replaceKey, clDegenerate, clScenarioTable, CLPolicy.init]
  · simp [clScenarioTable, clOld, clNew]

/-- The leisure applier processes policies strictly in the order of the
list: an error-free run on a first segment composes with the run of the
rest on the table the first segment produced. -/
theorem apply_cl_cons_ok (d : Date) (p p2 : CLPolicy) (ps : List CLPolicy) (t t2 : LTable)
    (hact : clIsActive p d = true) (hcp : clApplyPolicy d p t = (p2, t2, none)) :
    apply_change_probabilities_leisure d (p :: ps) t
      = (p2 :: (apply_change_probabilities_leisure d ps t2).1,
         (apply_change_probabilities_leisure d ps t2).2.1,
         (apply_change_probabilities_leisure d ps t2).2.2) := by
  simp [apply_change_probabilities_leisure, hact, hcp]

theorem apply_cl_cons_err (d : Date) (p p2 : CLPolicy) (ps : List CLPolicy) (t t2 : LTable)
    (e : PyErr) (hact : clIsActive p d = true)
    (hcp : clApplyPolicy d p t = (p2, t2, some e)) :
    apply_change_probabilities_leisure d (p :: ps) t = (p2 :: ps, t2, some e) := by
  simp [apply_change_probabilities_leisure, hact, hcp]

theorem apply_cl_cons_inactive (d : Date) (p : CLPolicy) (ps : List CLPolicy) (t : LTable)
    (hact : ¬ clIsActive p d = true) :
    apply_change_probabilities_leisure d (p :: ps) t
      = (p :: (apply_change_probabilities_leisure d ps t).1,
         (apply_change_probabilities_leisure d ps t).2.1,
         (apply_change_probabilities_leisure d ps t).2.2) := by
  simp [apply_change_probabilities_leisure, hact]

theorem apply_cl_append (d : Date) (rs : List CLPolicy) :
    ∀ (qs : List CLPolicy) (t : LTable),
      (apply_change_probabilities_leisure d qs t).2.2 = none →
      apply_change_probabilities_leisure d (qs ++ rs) t
        = ((apply_change_probabilities_leisure d qs t).1
            ++ (apply_change_probabilities_leisure d rs
                 (apply_change_probabilities_leisure d qs t).2.1).1,
           (apply_change_probabilities_leisure d rs
             (apply_change_probabilities_leisure d qs t).2.1).2.1,
           (apply_change_probabilities_leisure d rs
             (apply_change_probabilities_leisure d qs t).2.1).2.2) := by
  intro qs
  induction qs with
  | nil =>
    intro t _
    simp [apply_change_probabilities_leisure]
  | cons p qs ih =>
    intro t herr
    by_cases hact : clIsActive p d = true
    · rcases hcp : clApplyPolicy d p t with ⟨p2, t2, e⟩
      cases e with
      | some err =>
        rw [apply_cl_cons_err d p p2 qs t t2 err hact hcp] at herr
        exact Option.noConfusion herr
      | none =>
        have h1 := apply_cl_cons_ok d p p2 qs t t2 hact hcp
        have h2 := apply_cl_cons_ok d p p2 (qs ++ rs) t t2 hact hcp
        have herr2 : (apply_change_probabilities_leisure d qs t2).2.2 = none := by
          rw [h1] at herr
          exact herr
        rw [List.cons_append, h2, ih t2 herr2, h1]
        simp
    · have h1 := apply_cl_cons_inactive d p qs t hact
      have h2 := apply_cl_cons_inactive d p (qs ++ rs) t hact
      have herr2 : (apply_change_probabilities_leisure d qs t).2.2 = none := by
        rw [h1] at herr
        exact herr
      rw [List.cons_append, h2, ih t herr2, h1]
      simp

/-- C3 amended: `apply_social_distancing_policy` does run its deactivation
loop before its activation loop; but `apply_change_probabilities_leisure`
has no such two-phase ordering.  It processes the active policies one at a
time in list order — each policy sees the table state left by the policies
before it (third conjunct) — and for each policy the activation check
precedes the restoration check, so a policy whose `start_time` equals the
query date activates even when its `end_time` also equals the date: the
snapshot captures and the table is overwritten, no restoration happens for
it, and the remaining policies (including any whose `end_time` is the date
and therefore restore) are processed afterwards against the mutated table
(second conjunct). -/
theorem applier_ordering_amended :
    (∀ d ps beta, apply_social_distancing_policy d ps beta
        = sdActivationPass d ps (sdRestorePass d ps beta))
    ∧ (∀ d p ps t, p.start_time = d → p.end_time = d →
        (clActivateActs p.leisure_probabilities t p.original_leisure_probabilities).2.2
          = none →
        apply_change_probabilities_leisure d (p :: ps) t
          = (⟨p.start_time, p.end_time, p.leisure_probabilities,
              (clActivateActs p.leisure_probabilities t p.original_leisure_probabilities).2.1⟩
              :: (apply_change_probabilities_leisure d ps
                   (clActivateActs p.leisure_probabilities t
                     p.original_leisure_probabilities).1).1,
             (apply_change_probabilities_leisure d ps
               (clActivateActs p.leisure_probabilities t
                 p.original_leisure_probabilities).1).2.1,
             (apply_change_probabilities_leisure d ps
               (clActivateActs p.leisure_probabilities t
                 p.original_leisure_probabilities).1).2.2))
    ∧ (∀ d qs rs t, (apply_change_probabilities_leisure d qs t).2.2 = none →
        apply_change_probabilities_leisure d (qs ++ rs) t
          = ((apply_change_probabilities_leisure d qs t).1
              ++ (apply_change_probabilities_leisure d rs
                   (apply_change_probabilities_leisure d qs t).2.1).1,
             (apply_change_probabilities_leisure d rs
               (apply_change_probabilities_leisure d qs t).2.1).2.1,
             (apply_change_probabilities_leisure d rs
               (apply_change_probabilities_leisure d qs t).2.1).2.2)) := by
  refine ⟨fun d ps beta => rfl, ?_, fun d qs rs t herr => apply_cl_append d rs qs t herr⟩
  intro d p ps t hs he herr
  have hact : clIsActive p d = true := by
    rw [clIsActive, decide_eq_true_iff, hs, he]
    exact ⟨le_refl d, le_refl d⟩
  rcases ha : clActivateActs p.leisure_probabilities t p.original_leisure_probabilities
    with ⟨t2, ob2, e⟩
  rw [ha] at herr
  have he2 : e = none := herr
  subst he2
  have hcp : clApplyPolicy d p t
      = (⟨p.start_time, p.end_time, p.leisure_probabilities, ob2⟩, t2, none) := by
    unfold clApplyPolicy
    rw [if_pos hs, ha]
  rw [apply_cl_cons_ok d p (⟨p.start_time, p.end_time, p.leisure_probabilities, ob2⟩)
    ps t t2 hact hcp]

/-- Witness for the amended C3 statement at a concrete two-policy list: on
day 5 the degenerate-window policy at the head activates, and the later
policy — whose `end_time` is day 5 and which therefore restores — is
processed afterwards, against the already-mutated table. -/
theorem applier_ordering_amended_witness :
    apply_change_probabilities_leisure 5 (clDegenerate :: [clLaterRestore]) clScenarioTable
      = (⟨clDegenerate.start_time, clDegenerate.end_time, clDegenerate.leisure_probabilities,
          (clActivateActs clDegenerate.leisure_probabilities clScenarioTable
            clDegenerate.original_leisure_probabilities).2.1⟩
          :: (apply_change_probabilities_leisure 5 [clLaterRestore]
               (clActivateActs clDegenerate.leisure_probabilities clScenarioTable
                 clDegenerate.original_leisure_probabilities).1).1,
         (apply_change_probabilities_leisure 5 [clLaterRestore]
           (clActivateActs clDegenerate.leisure_probabilities clScenarioTable
             clDegenerate.original_leisure_probabilities).1).2.1,
         (apply_change_probabilities_leisure 5 [clLaterRestore]
           (clActivateActs clDegenerate.leisure_probabilities clScenarioTable
             clDegenerate.original_leisure_probabilities).1).2.2) :=
  applier_ordering_amended.2.1 5 clDegenerate [clLaterRestore] clScenarioTable rfl rfl rfl

theorem clActivateActs_append_absent
    (pre : List (String × Dist)) (a : String) (mw : Dist) (rest : List (String × Dist)) :
    ∀ (t : LTable) (ob : LSnap),
      (∀ x ∈ pre, (lookupD t x.1).isSome = true) → lookupD t a = none →
      clActivateActs (pre ++ (a, mw) :: rest) t ob
        = ((clActivateActs pre t ob).1, (clActivateActs pre t ob).2.1, some PyErr.policyError)
      ∧ (clActivateActs pre t ob).2.2 = none := by
  induction pre with
  | nil =>
    intro t ob _ ha
    simp [clActivateActs, ha]
  | cons x pre ih =>
    intro t ob hpre ha
    obtain ⟨k, mw'⟩ := x
    have hk : (lookupD t k).isSome = true := hpre (k, mw') (List.mem_cons_self _ _)
    obtain ⟨dist, hdist⟩ := Option.isSome_iff_exists.mp hk
    have hka : ¬ (a = k) := by
      intro hh
      rw [hh, hdist] at ha
      exact Option.noConfusion ha
    simp only [List.cons_append, clActivateActs, hdist]
    apply ih
    · intro y hy
      rw [lookupD_setD]
      by_cases hyk : y.1 = k
      · rw [if_pos hyk]
        rfl
      · rw [if_neg hyk]
        exact hpre y (List.mem_cons_of_mem _ hy)
    · rw [lookupD_setD, if_neg hka]
      exact ha

theorem clRestoreActs_append_absent
    (pre : List (String × Dist)) (a : String) (mw : Dist) (rest : List (String × Dist)) :
    ∀ (t : LTable) (ob : LSnap),
      (∀ x ∈ pre, (lookupD t x.1).isSome = true) →
      (∀ x ∈ pre, ∃ c, lookupD ob x.1 = some (some c)) →
      lookupD t a = none →
      clRestoreActs (pre ++ (a, mw) :: rest) t ob
        = ((clRestoreActs pre t ob).1, some PyErr.policyError)
      ∧ (clRestoreActs pre t ob).2 = none := by
  induction pre with
  | nil =>
    intro t ob _ _ ha
    simp [clRestoreActs, ha]
  | cons x pre ih =>
    intro t ob hpre hsnap ha
    obtain ⟨k, mw'⟩ := x
    have hk : (lookupD t k).isSome = true := hpre (k, mw') (List.mem_cons_self _ _)
    obtain ⟨dist, hdist⟩ := Option.isSome_iff_exists.mp hk
    obtain ⟨c, hc⟩ := hsnap (k, mw') (List.mem_cons_self _ _)
    have hka : ¬ (a = k) := by
      intro hh
      rw [hh, hdist] at ha
      exact Option.noConfusion ha
    simp only [List.cons_append, clRestoreActs, hdist, hc]
    apply ih
    · intro y hy
      rw [lookupD_setD]
      by_cases hyk : y.1 = k
      · rw [if_pos hyk]
        rfl
      · rw [if_neg hyk]
        exact hpre y (List.mem_cons_of_mem _ hy)
    · intro y hy
      exact hsnap y (List.mem_cons_of_mem _ hy)
    · rw [lookupD_setD, if_neg hka]
      exact ha

/-- C6: in `apply_change_probabilities_leisure`, a `ChangeLeisureProbability`
policy configured for an activity key absent from the leisure table raises
`PolicyError`; this happens in the activation branch (`start_time == date`)
and in the restoration branch (`end_time == date`, snapshots previously
filled) alike.  When it raises, the table keeps exactly the mutations (or
restorations) applied to the activities processed earlier in the same call:
the final state is the state reached by processing the activities listed
before the first absent one, with no rollback. -/
theorem cl_policy_error_on_missing_activity
    (d : Date) (p : CLPolicy) (t : LTable)
    (pre : List (String × Dist)) (a : String) (mw : Dist) (rest : List (String × Dist))
    (hactive : clIsActive p d = true)
    (hsplit : p.leisure_probabilities = pre ++ (a, mw) :: rest)
    (hpre : ∀ x ∈ pre, (lookupD t x.1).isSome = true)
    (ha : lookupD t a = none) :
    (p.start_time = d →
      apply_change_probabilities_leisure d [p] t
        = ([⟨p.start_time, p.end_time, p.leisure_probabilities,
             (clActivateActs pre t p.original_leisure_probabilities).2.1⟩],
           (clActivateActs pre t p.original_leisure_probabilities).1,
           some PyErr.policyError))
    ∧ (p.start_time ≠ d → p.end_time = d →
        (∀ x ∈ pre, ∃ c, lookupD p.original_leisure_probabilities x.1 = some (some c)) →
        apply_change_probabilities_leisure d [p] t
          = ([p], (clRestoreActs pre t p.original_leisure_probabilities).1,
             some PyErr.policyError)) := by
  constructor
  · intro hs
    obtain ⟨heq, _⟩ :=
      clActivateActs_append_absent pre a mw rest t p.original_leisure_probabilities hpre ha
    unfold apply_change_probabilities_leisure clApplyPolicy
    rw [hactive, if_pos rfl, if_pos hs, hsplit, heq]
  · intro hs he hsnap
    obtain ⟨heq, _⟩ :=
      clRestoreActs_append_absent pre a mw rest t p.original_leisure_probabilities
        hpre hsnap ha
    unfold apply_change_probabilities_leisure clApplyPolicy
    rw [hactive, if_pos rfl, if_neg hs, if_pos he, hsplit, heq]

/-- Witness for C6 at concrete inputs, both branches: activating (resp.
restoring) a policy configured for "pubs" then "gyms" against a table that
only knows "pubs" raises `PolicyError` and leaves the "pubs" mutation
(resp. restoration) in place. -/
theorem cl_policy_error_witness :
    (apply_change_probabilities_leisure 3 [clMissingPolicy] clMissingTable
      = ([⟨clMissingPolicy.start_time, clMissingPolicy.end_time,
           clMissingPolicy.leisure_probabilities,
           (clActivateActs [("pubs", clNew)] clMissingTable
             clMissingPolicy.original_leisure_probabilities).2.1⟩],
         (clActivateActs [("pubs", clNew)] clMissingTable
           clMissingPolicy.original_leisure_probabilities).1,
         some PyErr.policyError))
    ∧ (apply_change_probabilities_leisure 3 [clMissingPolicyEnd] clMissingTable
      = ([clMissingPolicyEnd],
         (clRestoreActs [("pubs", clNew)] clMissingTable
           clMissingPolicyEnd.original_leisure_probabilities).1,
         some PyErr.policyError)) :=
  ⟨(cl_policy_error_on_missing_activity 3 clMissingPolicy clMissingTable
      [("pubs", clNew)] "gyms" ([1], [1]) []
      (by decide) rfl (by decide) (by decide)).1 rfl,
   (cl_policy_error_on_missing_activity 3 clMissingPolicyEnd clMissingTable
      [("pubs", clNew)] "gyms" ([1], [1]) []
      (by decide) rfl (by decide) (by decide)).2 (by decide) rfl
      (by
        intro x hx
        rw [List.mem_singleton] at hx
        subst hx
        exact ⟨clOld, rfl⟩)⟩

/-- C4: for every policy kind and every date, `is_active` is true exactly on
the half-open window `[start_time, end_time)` — the `end_time` boundary
excluded — except for `ChangeLeisureProbability`, whose overridden
`is_active` uses the closed interval and is also true at `date = end_time`.
The structure-level activity tests used by the appliers agree with this
dispatch. -/
theorem is_active_window_shape :
    (∀ k s e d, is_active k s e d = true ↔
      (s ≤ d ∧ if k = PolicyKind.changeLeisureProbability then d ≤ e else d < e))
    ∧ (∀ p d, sdIsActive p d = is_active PolicyKind.socialDistancing p.start_time p.end_time d)
    ∧ (∀ p d, clIsActive p d
        = is_active PolicyKind.changeLeisureProbability p.start_time p.end_time d) := by
  refine ⟨?_, fun p d => rfl, fun p d => rfl⟩
  intro k s e d
  cases k <;> simp [is_active]

/-- C5 counterexample: a non-string, non-date argument makes construction
fail with `TypeError`, not with the claimed `ConfigurationError` (no such
class exists anywhere in the repository). -/
theorem read_date_not_configuration_error :
    read_date DateArg.otherVal ≠ Except.error PyErr.configurationError
    ∧ read_date DateArg.otherVal = Except.error PyErr.typeError
    ∧ policy_init_dates DateArg.otherVal (DateArg.str "2100-01-01")
        = Except.error PyErr.typeError := by
  refine ⟨?_, rfl, rfl⟩
  intro h
  exact PyErr.noConfusion (Except.error.inj h)

/-- C5 amended: for every input that is neither a string nor a date-like
value, construction fails immediately with a `TypeError`; every string in
`%Y-%m-%d` format and every native date value is accepted and stored as the
parsed date. -/
theorem read_date_validation_amended :
    read_date DateArg.otherVal = Except.error PyErr.typeError
    ∧ (∀ d, read_date (DateArg.pydate d) = Except.ok d)
    ∧ (∀ s d, parseYMD s = some d → read_date (DateArg.str s) = Except.ok d)
    ∧ (∀ e, policy_init_dates DateArg.otherVal e = Except.error PyErr.typeError) := by
  refine ⟨rfl, fun d => rfl, fun s d h => ?_, fun e => rfl⟩
  simp [read_date, h]

/-- Witness for the amended C5 statement on a concrete well-formed date
string. -/
theorem read_date_validation_witness :
    parseYMD "2020-03-15" = some ⟨2020, 3, 15⟩
    ∧ read_date (DateArg.str "2020-03-15") = Except.ok ⟨2020, 3, 15⟩ :=
  ⟨by decide, read_date_validation_amended.2.2.1 "2020-03-15" ⟨2020, 3, 15⟩ (by decide)⟩

/-- C7: for a hospitalised person the call returns `false` after zero
member evaluations, whatever the member policies are; for anyone else it
returns `true` exactly when some member predicate holds, and it evaluates
only the members up to and including the first hit. -/
theorem stay_home_collection_shape :
    ∀ (pols : List (PersonSH → ℚ → Bool)) (p : PersonSH) (d : ℚ),
      stayHomeCollectionCall pols p d
        = if p.hospital.isSome = true then (false, 0)
          else (pols.any (fun f => f p d),
                (pols.takeWhile (fun f => ! f p d)).length
                  + (if pols.any (fun f => f p d) = true then 1 else 0)) := by
  intro pols p d
  cases hh : p.hospital with
  | some v => simp [stayHomeCollectionCall, hh]
  | none =>
    simp only [stayHomeCollectionCall, hh, Option.isSome_none]
    rw [if_neg (by simp)]
    induction pols with
    | nil => rfl
    | cons f fs ih =>
      by_cases hf : f p d = true
      · simp [stayHomeLoop, hf]
      · have hf' : f p d = false := by
          cases hcase : f p d
          · rfl
          · exact absurd hcase hf
        rw [stayHomeLoop, if_neg hf, ih]
        by_cases hany : fs.any (fun f => f p d) = true <;>
          simp [hf', hany, List.takeWhile_cons, Nat.add_assoc, Nat.add_comm]

theorem skip_activity_sublist (pol : SkipActivityPolicy) (p : PersonSkip) (r : ℚ)
    (acts : List String) : (skip_activity pol p r acts).Sublist acts := by
  cases pol <;> simp only [skip_activity] <;>
    (repeat' split) <;>
    first
      | exact List.filter_sublist _
      | exact List.Sublist.refl _

/-- C8: with zero member policies the collection returns the activity list
unchanged, and for every sequence of member policies the result is a
subsequence of the input — once an activity is removed by an earlier member
no later member can re-add it. -/
theorem skip_activity_collection_identity_and_sublist :
    (∀ p acts, skipActivityCollectionCall [] p acts = acts)
    ∧ (∀ members p acts, (skipActivityCollectionCall members p acts).Sublist acts) := by
  constructor
  · intro p acts
    rfl
  · intro members
    induction members with
    | nil =>
      intro p acts
      exact List.Sublist.refl _
    | cons pr rest ih =>
      intro p acts
      obtain ⟨pol, r⟩ := pr
      exact (ih p (skip_activity pol p r acts)).trans (skip_activity_sublist pol p r acts)

/-- C9: with `n_days = 7`, symptom onset at day 5, a mild or severe tag and
a household check that returns false, the person must stay at home at
`days_from_start = 8` and is released at `days_from_start = 13`
(release day `5 + 7 = 12`, self-quarantine exactly for
`release_day > days_from_start > onset`). -/
theorem quarantine_scenario (p : PersonQ)
    (htag : p.symptoms_tag = some SymptomTag.mild ∨ p.symptoms_tag = some SymptomTag.severe)
    (honset : p.time_of_symptoms_onset = some 5)
    (hhouse : ∀ a b c, p.household_quarantine a b c = Except.ok false) :
    quarantine_must_stay_at_home ⟨7, 14, 1⟩ p 8 = Except.ok true
    ∧ quarantine_must_stay_at_home ⟨7, 14, 1⟩ p 13 = Except.ok false := by
  rcases htag with h | h <;>
    exact ⟨by norm_num [quarantine_must_stay_at_home, h, honset, hhouse],
           by norm_num [quarantine_must_stay_at_home, h, honset, hhouse]⟩

/-- Witness for the C9 scenario with a concrete person. -/
theorem quarantine_scenario_witness :
    quarantine_must_stay_at_home ⟨7, 14, 1⟩ personQScenario 8 = Except.ok true
    ∧ quarantine_must_stay_at_home ⟨7, 14, 1⟩ personQScenario 13 = Except.ok false :=
  quarantine_scenario personQScenario (Or.inl rfl) rfl (fun _ _ _ => rfl)

/-- C10: only the self-quarantine check is protected by the swallow-all
branch.  A household collaborator failure always propagates out of
`must_stay_at_home`, whatever the person's symptom data; and when reading
the person's own symptom state fails (no symptoms recorded, or no onset
time), the self check silently yields false and the result is exactly the
household check's outcome. -/
theorem quarantine_household_error_propagates (pol : QuarantineParams) (p : PersonQ) (d : ℚ) :
    (∀ e, p.household_quarantine d pol.n_days_household pol.household_complacency
        = Except.error e →
      quarantine_must_stay_at_home pol p d = Except.error e)
    ∧ (p.symptoms_tag = none →
        quarantine_must_stay_at_home pol p d
          = p.household_quarantine d pol.n_days_household pol.household_complacency)
    ∧ (∀ tag, p.symptoms_tag = some tag → p.time_of_symptoms_onset = none →
        quarantine_must_stay_at_home pol p d
          = p.household_quarantine d pol.n_days_household pol.household_complacency) := by
  refine ⟨?_, ?_, ?_⟩
  · intro e he
    simp [quarantine_must_stay_at_home, he]
  · intro hnone
    cases hh : p.household_quarantine d pol.n_days_household pol.household_complacency with
    | error e => simp [quarantine_must_stay_at_home, hnone, hh]
    | ok hq => simp [quarantine_must_stay_at_home, hnone, hh]
  · intro tag htag honset
    cases hh : p.household_quarantine d pol.n_days_household pol.household_complacency with
    | error e => simp [quarantine_must_stay_at_home, htag, honset, hh]
    | ok hq => cases tag <;> simp [quarantine_must_stay_at_home, htag, honset, hh]

/-- Witness for C10: a concrete person whose household collaborator raises;
the exception propagates. -/
theorem quarantine_household_error_witness :
    quarantine_must_stay_at_home ⟨7, 14, 1⟩ personQFailingHouse 8
      = Except.error PyErr.keyError :=
  (quarantine_household_error_propagates ⟨7, 14, 1⟩ personQFailingHouse 8).1
    PyErr.keyError rfl

end JunePolicy
